import Mathlib

/-!
Verification of the column-describer core of the synthetic-data-generator
repository (file `sdgx/models/LLM/base.py`): the method
`LLMBaseModel.Form_columns_description` and its four per-kind helper
functions.  The Python code is shallowly embedded below.

Modelling conventions
- A pandas column (`pd.Series`) of integer kind is a `List Int`; a
  date/time column is a `List Int` of timestamps; categorical and
  text/object columns are `List String`.
- A raised Python exception is an `Except.error` value carrying a
  `PyError`; code that cannot raise returns plain values.
- `Series.std()` has default `ddof = 1` (pandas documentation), so the
  standard deviation is the square root of the unbiased, `N - 1`
  variance.  The square root of a rational is irrational in general, so
  the embedding carries the exact square of the standard deviation
  (`std_deviation_sq`); every claim about the standard deviation is
  stated through its square.
- pandas statistics on degenerate inputs give `NaN`, never raise:
  `min`/`max`/`mean` of an empty column and `std` of a column of fewer
  than two values are `NaN`.  `NaN` is modelled as `Option.none`.
- Python float repr digits are not modelled; the rendering functions
  below print rationals with `toString`, and no claim depends on the
  printed digits of a float.
-/

/-- A Python exception, as propagated by the embedded code. -/
inductive PyError where
  | typeError (msg : String)
deriving DecidableEq, Repr

/-- A Python value as it appears interpolated into an f-string: either a
timestamp value, or a bound method object that was referenced without
being called (as in `column_data.max`, which is missing its call
parentheses in the source). -/
inductive PyShown where
  | timestamp (t : Int)
  | boundMethod (methodName : String)
deriving DecidableEq, Repr

/-- pandas `Series.min()` on an integer column: `NaN` (here `none`) on an
empty column, otherwise the least element. -/
def seriesMin (column_data : List Int) : Option Int :=
  column_data.min?

/-- pandas `Series.max()` on an integer column: `NaN` (here `none`) on an
empty column, otherwise the greatest element. -/
def seriesMax (column_data : List Int) : Option Int :=
  column_data.max?

/-- pandas `Series.mean()`: `NaN` on an empty column, otherwise the sum
divided by the count. -/
def seriesMean (column_data : List Int) : Option ℚ :=
  if column_data.length = 0 then none
  else some ((column_data.sum : ℚ) / (column_data.length : ℚ))

/-- The square of pandas `Series.std()` (default `ddof = 1`): `NaN` when
fewer than two values are present, otherwise the sum of squared
deviations from the mean divided by `N - 1`. -/
def seriesStdSq (column_data : List Int) : Option ℚ :=
  if column_data.length < 2 then none
  else some
    ((column_data.map
        (fun x => ((x : ℚ) - (column_data.sum : ℚ) / (column_data.length : ℚ)) ^ 2)).sum /
      ((column_data.length : ℚ) - 1))

/-- pandas `Series.unique()`: the distinct values in order of first
appearance. -/
def pdUnique (column_data : List String) : List String :=
  column_data.foldl (fun acc x => if x ∈ acc then acc else acc ++ [x]) []

/-- Statistics block of `_add_int64_column_descriptions`. -/
structure Int64Stats where
  min_value : Option Int
  max_value : Option Int
  mean_value : Option ℚ
  std_deviation_sq : Option ℚ
deriving DecidableEq, Repr

/-- Statistics block of `_add_datetime64_column_descriptions`.  The
source assigns `end_date = column_data.max` without calling the method,
so the end date is a bound method object, not a timestamp. -/
structure DatetimeStats where
  start_date : Option Int
  end_date : PyShown
deriving DecidableEq, Repr

/-- Statistics block of `_add_object_column_descriptions`. -/
structure ObjectStats where
  all_objects : Nat
  unique_objects : Nat
deriving DecidableEq, Repr

/-- A kind-specific statistics block.  There is no categorical
constructor: `_add_category_column_descriptions` always raises before
producing a block (see below). -/
inductive StatsBlock where
  | int64Stats (s : Int64Stats)
  | datetimeStats (s : DatetimeStats)
  | objectStats (s : ObjectStats)
deriving DecidableEq, Repr

/-- Embedding of `_add_int64_column_descriptions`: computes
`column_data.min()`, `column_data.max()`, `column_data.mean()` and
`column_data.std()` (carried as its square). -/
def _add_int64_column_descriptions (column_data : List Int) : Int64Stats :=
  ⟨seriesMin column_data, seriesMax column_data,
    seriesMean column_data, seriesStdSq column_data⟩

/-- Embedding of `_add_datetime64_column_descriptions`:
`start_date = column_data.min()` is the earliest value, but
`end_date = column_data.max` is the bound method `max` itself, because
the source omits the call parentheses. -/
def _add_datetime64_column_descriptions (column_data : List Int) : DatetimeStats :=
  ⟨seriesMin column_data, PyShown.boundMethod "max"⟩

/-- Embedding of `_add_category_column_descriptions`: its first
statement, `all_categories = len(column_data.values())`, calls
`Series.values`.  That attribute is a property whose value is a
`Categorical`, which is not callable, so the helper always raises
`TypeError` before building any statistics. -/
def _add_category_column_descriptions (_column_data : List String) :
    Except PyError StatsBlock :=
  .error (.typeError "Categorical object is not callable")

/-- Embedding of `_add_object_column_descriptions`:
`all_objects = len(column_data)` and
`unique_objects = len(column_data.unique())`. -/
def _add_object_column_descriptions (column_data : List String) : ObjectStats :=
  ⟨column_data.length, (pdUnique column_data).length⟩

/-- The data of one column together with its pandas dtype, one
constructor per dtype of interest.  `otherData` covers every remaining
dtype (for example `float64`), carrying the string the dtype prints as;
its values are never inspected by the describer. -/
inductive ColumnData where
  | int64Data (vals : List Int)
  | datetimeData (vals : List Int)
  | categoryData (vals : List String)
  | objectData (vals : List String)
  | otherData (dtypeName : String) (vals : List String)
deriving DecidableEq, Repr

/-- The string a pandas dtype prints as inside the header f-string.  A
tz-naive datetime column prints as `datetime64[ns]`. -/
def ColumnData.dtypeName : ColumnData → String
  | .int64Data _ => "int64"
  | .datetimeData _ => "datetime64[ns]"
  | .categoryData _ => "category"
  | .objectData _ => "object"
  | .otherData n _ => n

/-- Whether the column is of categorical dtype (the one dtype whose
statistics helper raises). -/
def ColumnData.isCategory : ColumnData → Bool
  | .categoryData _ => true
  | _ => false

/-- A named column of a table. -/
structure Column where
  name : String
  data : ColumnData
deriving DecidableEq, Repr

/-- A table: an ordered sequence of named columns, as iterated by
`pd.DataFrame.items()`. -/
abbrev Table := List Column

/-- The `if data_type == ... / elif ...` dispatch of
`Form_columns_description`, one match arm per comparison outcome:
- `int64Data`: `data_type == "int64"` is true, the integer helper runs;
- `datetimeData`: the dtype is `datetime64[ns]` and numpy considers two
  datetime dtypes equal only when their units agree, so
  `data_type == "datetime64"` (generic unit) is false and no branch of
  the chain matches: no statistics are appended;
- `categoryData`: `CategoricalDtype` compares equal to the string
  `"category"`, so the categorical helper runs, and it raises;
- `objectData`: `data_type == "object"` is true, the object helper runs;
- `otherData` (for example `float64`): no comparison of the chain is
  true, no statistics are appended. -/
def describeColumnStats : ColumnData → Except PyError (Option StatsBlock)
  | .int64Data vals => .ok (some (.int64Stats (_add_int64_column_descriptions vals)))
  | .datetimeData _ => .ok none
  | .categoryData vals => (_add_category_column_descriptions vals).map some
  | .objectData vals => .ok (some (.objectStats (_add_object_column_descriptions vals)))
  | .otherData _ _ => .ok none

/-- One loop iteration of `Form_columns_description`: the header data
(zero-based index `i`, column name, dtype string) together with the
kind-specific statistics, or the exception the iteration raises. -/
structure ColumnBlock where
  index : Nat
  column_name : String
  data_type : String
  stats : Option StatsBlock
deriving DecidableEq, Repr

/-- The loop of `Form_columns_description` over the remaining columns,
`i` being the index of the first of them: each iteration either yields a
block or raises, and a raise abandons the whole traversal (the partially
built description is discarded when the exception propagates). -/
def formBlocksGo (i : Nat) : List Column → Except PyError (List ColumnBlock)
  | [] => .ok []
  | c :: rest =>
    match describeColumnStats c.data with
    | .error e => .error e
    | .ok st =>
      match formBlocksGo (i + 1) rest with
      | .error e => .error e
      | .ok bs => .ok (⟨i, c.name, c.data.dtypeName, st⟩ :: bs)

/-- Rendering of an optional integer statistic (`NaN` prints as `nan`). -/
def optIntRepr : Option Int → String
  | none => "nan"
  | some n => toString n

/-- Rendering of an optional rational statistic.  Python prints a float;
its digits are not modelled and no claim depends on them. -/
def optRatRepr : Option ℚ → String
  | none => "nan"
  | some q => toString q

/-- Rendering of the standard deviation from its carried square.  Python
prints the decimal value of the square root; the digits are not
modelled and no claim depends on them. -/
def optStdRepr : Option ℚ → String
  | none => "nan"
  | some q => "sqrt " ++ toString q

/-- Rendering of a value interpolated into an f-string: a timestamp
prints as its value, a bound method prints as its repr. -/
def pyShownRepr : PyShown → String
  | .timestamp t => toString t
  | .boundMethod m => "<bound method Series." ++ m ++ " of ...>"

/-- Rendering of a statistics block, following the f-strings of the
three helpers that can return. -/
def renderStats : StatsBlock → String
  | .int64Stats s =>
    "min value: " ++ optIntRepr s.min_value ++ "\nmax value: " ++ optIntRepr s.max_value ++
      "\nmean value: " ++ optRatRepr s.mean_value ++ "\nstandard deviation: " ++
      optStdRepr s.std_deviation_sq ++ "\n"
  | .datetimeStats s =>
    "start date: " ++ optIntRepr s.start_date ++ "\nend date: " ++
      pyShownRepr s.end_date ++ "\n"
  | .objectStats s =>
    "number of all object values: " ++ toString s.all_objects ++
      "\nnumber of unique object values: " ++ toString s.unique_objects ++ "\n"

/-- Rendering of one column paragraph: the header f-string
`column #{i}\ncolumn name: {column_name}\ncolumn data type: {data_type}\n`
followed by the statistics block, if any. -/
def renderBlock (b : ColumnBlock) : String :=
  "column #" ++ toString b.index ++ "\ncolumn name: " ++ b.column_name ++
    "\ncolumn data type: " ++ b.data_type ++ "\n" ++
    (match b.stats with
      | none => ""
      | some s => renderStats s)

/-- The accumulation of `Form_columns_description`: starting from the
empty string, each iteration appends first `"\n"` and then the column
paragraph (`all_descriptions += "\n"` then
`all_descriptions += description`). -/
def renderDescription (bs : List ColumnBlock) : String :=
  bs.foldl (fun acc b => acc ++ "\n" ++ renderBlock b) ""

/-- Embedding of `Form_columns_description(sampled_data)`: iterates over
the columns in order with `enumerate(sampled_data_df.items())`, builds
one paragraph per column and returns the concatenation, or propagates
the first exception raised by a helper. -/
def Form_columns_description (sampled_data : Table) : Except PyError String :=
  (formBlocksGo 0 sampled_data).map renderDescription

/-- Whether some column of the table has categorical dtype. -/
def hasCategoryColumn (t : Table) : Bool :=
  t.any fun c => c.data.isCategory

/-- Embedding of the class `LLMBaseModel`: all class-level attributes
that make up an instance of the model (the describer reads none of
them).  The leading underscores of `_metadata`, `_responses` and
`_message_list` are kept from the source. -/
structure LLMBaseModel where
  use_raw_data : Bool
  use_metadata : Bool
  _metadata : Option String
  off_table_features : List String
  prompts : List (String × String)
  columns : List String
  dataset_description : String
  _responses : List String
  _message_list : List String
deriving DecidableEq, Repr

/-- The class-level default values of `LLMBaseModel`. -/
def defaultLLMBaseModel : LLMBaseModel :=
  ⟨false, false, none, [],
    [("message_prefix",
      "Suppose you are the best data generating model in this world, we have some data samples with the following information:\n\n"),
     ("message_suffix",
      "\nGenerate synthetic data samples based on the above information and your knowledge, each sample should be output on one line (do not output in multiple lines), the output format of the sample is the same as the example in this message, such as \"column_name_1 is value_1\", the count of the generated data samples is "),
     ("system_role_content",
      "You are a powerful synthetic data generation model.")],
    [], "", [], []⟩

/-- The method `LLMBaseModel.Form_columns_description`: its body never
reads `self`, so it delegates to the pure function. -/
def LLMBaseModel.form_columns_description (_self : LLMBaseModel)
    (sampled_data : Table) : Except PyError String :=
  Form_columns_description sampled_data

/-- A one-column table whose single column is categorical. -/
def tCategory : Table :=
  [⟨"cat", ColumnData.categoryData ["A", "A", "B", "C", "C", "C"]⟩]

/-- A two-column table (an integer column and a text column) with no
categorical column. -/
def tWitness : Table :=
  [⟨"age", ColumnData.int64Data [1, 2, 3, 4, 5]⟩,
   ⟨"city", ColumnData.objectData ["x", "y", "x"]⟩]

lemma pdUnique_foldl (xs : List String) :
    ∀ acc : List String, acc.Nodup →
      (xs.foldl (fun acc x => if x ∈ acc then acc else acc ++ [x]) acc).Nodup ∧
      (xs.foldl (fun acc x => if x ∈ acc then acc else acc ++ [x]) acc).toFinset =
        acc.toFinset ∪ xs.toFinset := by
  induction xs with
  | nil => intro acc h; simpa using h
  | cons x xs ih =>
    intro acc h
    rw [List.foldl_cons]
    by_cases hx : x ∈ acc
    · simp only [if_pos hx]
      obtain ⟨h1, h2⟩ := ih acc h
      refine ⟨h1, ?_⟩
      rw [h2, List.toFinset_cons, Finset.union_insert, Finset.insert_eq_self.mpr]
      exact Finset.mem_union_left _ (List.mem_toFinset.mpr hx)
    · simp only [if_neg hx]
      have hacc : (acc ++ [x]).Nodup := by
        simp [List.nodup_append, h, hx]
      obtain ⟨h1, h2⟩ := ih _ hacc
      refine ⟨h1, ?_⟩
      rw [h2]
      ext a
      simp only [List.toFinset_append, List.toFinset_cons, List.toFinset_nil,
        Finset.mem_union, Finset.mem_insert, Finset.not_mem_empty, List.mem_toFinset,
        or_false]
      tauto

lemma pdUnique_length (xs : List String) :
    (pdUnique xs).length = xs.toFinset.card := by
  obtain ⟨h1, h2⟩ := pdUnique_foldl xs [] (by simp)
  calc (pdUnique xs).length
      = (pdUnique xs).toFinset.card := (List.toFinset_card_of_nodup h1).symm
    _ = (([] : List String).toFinset ∪ xs.toFinset).card := by rw [pdUnique, h2]
    _ = xs.toFinset.card := by simp

/-- C1: the claim says the categorical statistics block reports the
total count of values and the count of distinct categories (6 and 3 for
[A,A,B,C,C,C]).  The code instead raises: the helper calls the
`Series.values` property as if it were a function, which is a
`TypeError`, so no categorical statistics block is ever produced. -/
theorem category_stats_helper_raises :
    _add_category_column_descriptions ["A", "A", "B", "C", "C", "C"] =
      .error (.typeError "Categorical object is not callable") ∧
    describeColumnStats (ColumnData.categoryData ["A", "A", "B", "C", "C", "C"]) =
      .error (.typeError "Categorical object is not callable") :=
  ⟨rfl, rfl⟩

/-- C2: the claim says the describer raises no error on any table whose
columns all have a declared kind.  The code contradicts it: on a table
with a categorical column the describer raises `TypeError` out of
`_add_category_column_descriptions`. -/
theorem describer_raises_on_category_table :
    Form_columns_description tCategory =
      .error (.typeError "Categorical object is not callable") :=
  rfl

/-- C3: the claim says a date/time statistics block reports the earliest
and the latest value (2020-01-01 and 2020-12-31, encoded below as epoch
days 18262 and 18627).  The code contradicts it twice: the helper sets
the end date to the bound method `max` itself rather than its value
(missing call parentheses), and the dispatch comparison
`data_type == "datetime64"` is false for the pandas dtype
`datetime64[ns]`, so a datetime column gets no statistics block at
all. -/
theorem datetime_description_bound_method :
    _add_datetime64_column_descriptions [18262, 18627] =
      ⟨some 18262, PyShown.boundMethod "max"⟩ ∧
    PyShown.boundMethod "max" ≠ PyShown.timestamp 18627 ∧
    describeColumnStats (ColumnData.datetimeData [18262, 18627]) = .ok none := by
  refine ⟨by decide, by decide, rfl⟩

/-- C6: for every text/object-kind column the statistics block reports
the total count of values and the count of distinct values; for
["x","y","x"] it reports total count 3 and distinct count 2. -/
theorem object_column_counts (column_data : List String) :
    _add_object_column_descriptions column_data =
      ⟨column_data.length, column_data.toFinset.card⟩ ∧
    _add_object_column_descriptions ["x", "y", "x"] = ⟨3, 2⟩ := by
  refine ⟨?_, by decide⟩
  show ObjectStats.mk _ _ = _
  rw [pdUnique_length]

/-- C8: for every column whose declared kind is none of the recognized
kinds (integer, date/time, categorical, text/object), the header block
is still emitted, with the column index, name and dtype, and no
statistics block is appended after it. -/
theorem unrecognized_kind_header_only (i : Nat) (name dn : String)
    (vals : List String)
    (_h : dn ∉ ["int64", "datetime64", "datetime64[ns]", "category", "object"]) :
    describeColumnStats (ColumnData.otherData dn vals) = .ok none ∧
    formBlocksGo i [⟨name, ColumnData.otherData dn vals⟩] =
      .ok [⟨i, name, dn, none⟩] :=
  ⟨rfl, rfl⟩

/-- Witness for C8 at a concrete `float64` column. -/
theorem unrecognized_kind_header_only_witness :
    "float64" ∉ ["int64", "datetime64", "datetime64[ns]", "category", "object"] ∧
    (describeColumnStats (ColumnData.otherData "float64" ["1.5", "2.5"]) = .ok none ∧
      formBlocksGo 0 [⟨"price", ColumnData.otherData "float64" ["1.5", "2.5"]⟩] =
        .ok [⟨0, "price", "float64", none⟩]) :=
  ⟨by decide, unrecognized_kind_header_only 0 "price" "float64" ["1.5", "2.5"] (by decide)⟩

/-- C9: the describer is deterministic and a function of the input table
alone: the method reads none of the instance state, so any two
instances of `LLMBaseModel` (and the pure function itself) produce the
same result on the same table. -/
theorem describer_state_independent (m₁ m₂ : LLMBaseModel) (t : Table) :
    m₁.form_columns_description t = m₂.form_columns_description t ∧
    m₁.form_columns_description t = Form_columns_description t :=
  ⟨rfl, rfl⟩

/-- C4: for every non-empty integer-kind column the statistics block
reports the minimum, the maximum, the arithmetic mean (characterized by
mean times count = sum) and the sample standard deviation with the
unbiased N - 1 denominator (characterized through its square); for
[1,2,3,4,5] it reports min 1, max 5, mean 3 and squared standard
deviation 5/2, which places the standard deviation strictly between
1.5811 and 1.5812. -/
theorem int64_column_statistics (xs : List Int) (hne : xs ≠ []) :
    (∃ m, (_add_int64_column_descriptions xs).min_value = some m ∧ m ∈ xs ∧
        ∀ y ∈ xs, m ≤ y) ∧
    (∃ M, (_add_int64_column_descriptions xs).max_value = some M ∧ M ∈ xs ∧
        ∀ y ∈ xs, y ≤ M) ∧
    (∃ μ, (_add_int64_column_descriptions xs).mean_value = some μ ∧
        μ * (xs.length : ℚ) = (xs.sum : ℚ)) ∧
    (2 ≤ xs.length →
      ∃ v, (_add_int64_column_descriptions xs).std_deviation_sq = some v ∧
        v * ((xs.length : ℚ) - 1) =
          (xs.map (fun x => ((x : ℚ) - (xs.sum : ℚ) / (xs.length : ℚ)) ^ 2)).sum) ∧
    (_add_int64_column_descriptions [1, 2, 3, 4, 5] =
        ⟨some 1, some 5, some 3, some (5 / 2)⟩ ∧
      ((15811 : ℚ) / 10000) ^ 2 < 5 / 2 ∧ (5 / 2 : ℚ) < ((15812 : ℚ) / 10000) ^ 2) := by
  have hlen : xs.length ≠ 0 := by
    simpa [List.length_eq_zero] using hne
  have hmean5 : seriesMean [1, 2, 3, 4, 5] = some 3 := by
    simp [seriesMean]
    norm_num
  have hstd5 : seriesStdSq [1, 2, 3, 4, 5] = some (5 / 2) := by
    simp [seriesStdSq]
    norm_num
  have hmin5 : seriesMin [1, 2, 3, 4, 5] = some 1 := by decide
  have hmax5 : seriesMax [1, 2, 3, 4, 5] = some 5 := by decide
  have hex : _add_int64_column_descriptions [1, 2, 3, 4, 5] =
      ⟨some 1, some 5, some 3, some (5 / 2)⟩ := by
    show (⟨seriesMin [1, 2, 3, 4, 5], seriesMax [1, 2, 3, 4, 5],
      seriesMean [1, 2, 3, 4, 5], seriesStdSq [1, 2, 3, 4, 5]⟩ : Int64Stats) = _
    rw [hmin5, hmax5, hmean5, hstd5]
  have hlt1 : ((15811 : ℚ) / 10000) ^ 2 < 5 / 2 := by norm_num
  have hlt2 : (5 / 2 : ℚ) < ((15812 : ℚ) / 10000) ^ 2 := by norm_num
  refine ⟨?_, ?_, ?_, ?_, hex, hlt1, hlt2⟩
  · obtain ⟨m, hm⟩ : ∃ m, xs.min? = some m := by
      cases hmm : xs.min? with
      | none => exact absurd (List.min?_eq_none_iff.mp hmm) hne
      | some m => exact ⟨m, rfl⟩
    refine ⟨m, ?_, List.min?_mem (fun a b => min_choice a b) hm, ?_⟩
    · simpa [_add_int64_column_descriptions, seriesMin] using hm
    · intro y hy
      exact (List.le_min?_iff (fun _ _ _ => le_min_iff) hm).1 le_rfl y hy
  · obtain ⟨M, hM⟩ : ∃ M, xs.max? = some M := by
      cases hmm : xs.max? with
      | none => exact absurd (List.max?_eq_none_iff.mp hmm) hne
      | some M => exact ⟨M, rfl⟩
    refine ⟨M, ?_, List.max?_mem (fun a b => max_choice a b) hM, ?_⟩
    · simpa [_add_int64_column_descriptions, seriesMax] using hM
    · intro y hy
      exact (List.max?_le_iff (fun _ _ _ => max_le_iff) hM).1 le_rfl y hy
  · have hq : (xs.length : ℚ) ≠ 0 := Nat.cast_ne_zero.mpr hlen
    refine ⟨(xs.sum : ℚ) / (xs.length : ℚ), ?_, div_mul_cancel₀ _ hq⟩
    simp [_add_int64_column_descriptions, seriesMean, hlen]
  · intro h2
    have hq : ((xs.length : ℚ) - 1) ≠ 0 := by
      have : (2 : ℚ) ≤ (xs.length : ℚ) := by exact_mod_cast h2
      linarith
    refine ⟨_, ?_, div_mul_cancel₀ _ hq⟩
    simp [_add_int64_column_descriptions, seriesStdSq, Nat.not_lt.mpr h2]

/-- Witness for C4: the theorem applied to the concrete column
[1,2,3,4,5]. -/
theorem int64_column_statistics_witness :
    ([1, 2, 3, 4, 5] : List Int) ≠ [] ∧
    _add_int64_column_descriptions [1, 2, 3, 4, 5] =
      ⟨some 1, some 5, some 3, some (5 / 2)⟩ :=
  ⟨by decide, (int64_column_statistics [1, 2, 3, 4, 5] (by decide)).2.2.2.2.1⟩

lemma describeColumnStats_ok_of_not_category (d : ColumnData)
    (h : d.isCategory = false) : ∃ st, describeColumnStats d = .ok st := by
  cases d with
  | int64Data v => exact ⟨_, rfl⟩
  | datetimeData v => exact ⟨_, rfl⟩
  | categoryData v => simp [ColumnData.isCategory] at h
  | objectData v => exact ⟨_, rfl⟩
  | otherData n v => exact ⟨_, rfl⟩

lemma formBlocksGo_ok (cols : List Column)
    (h : ∀ c ∈ cols, c.data.isCategory = false) :
    ∀ i, ∃ bs, formBlocksGo i cols = .ok bs ∧ bs.length = cols.length ∧
      ∀ (j : Nat) (b : ColumnBlock), bs[j]? = some b →
        ∃ c, cols[j]? = some c ∧ b.index = i + j ∧ b.column_name = c.name ∧
          b.data_type = c.data.dtypeName := by
  induction cols with
  | nil =>
    intro i
    refine ⟨[], rfl, rfl, ?_⟩
    intro j b hb
    simp at hb
  | cons c rest ih =>
    intro i
    obtain ⟨st, hst⟩ := describeColumnStats_ok_of_not_category c.data (h c (by simp))
    obtain ⟨bs, hbs, hlen, hidx⟩ := ih (fun x hx => h x (by simp [hx])) (i + 1)
    refine ⟨⟨i, c.name, c.data.dtypeName, st⟩ :: bs, ?_, by simp [hlen], ?_⟩
    · simp [formBlocksGo, hst, hbs]
    · intro j b hb
      cases j with
      | zero =>
        rw [List.getElem?_cons_zero] at hb
        injection hb with hb
        subst hb
        exact ⟨c, by simp, by simp, rfl, rfl⟩
      | succ j =>
        rw [List.getElem?_cons_succ] at hb
        obtain ⟨c', hc', hbi, hbn, hbt⟩ := hidx j b hb
        refine ⟨c', by simpa using hc', by omega, hbn, hbt⟩

lemma renderDescription_shift (bs : List ColumnBlock) :
    ∀ acc : String, bs.foldl (fun a b => a ++ "\n" ++ renderBlock b) acc =
      acc ++ renderDescription bs := by
  induction bs with
  | nil => intro acc; simp [renderDescription]
  | cons b bs ih =>
    intro acc
    simp only [renderDescription, List.foldl_cons]
    rw [ih, ih]
    simp [String.append_assoc]

lemma renderDescription_cons (b : ColumnBlock) (bs : List ColumnBlock) :
    renderDescription (b :: bs) = "\n" ++ (renderBlock b ++ renderDescription bs) := by
  show List.foldl _ ("" ++ "\n" ++ renderBlock b) bs = _
  rw [renderDescription_shift]
  simp [String.append_assoc]

lemma form_ok_of_no_category (t : Table) (h : hasCategoryColumn t = false) :
    ∃ bs, formBlocksGo 0 t = .ok bs ∧
      Form_columns_description t = .ok (renderDescription bs) ∧
      bs.length = t.length ∧
      ∀ (j : Nat) (b : ColumnBlock), bs[j]? = some b →
        ∃ c, t[j]? = some c ∧ b.index = j ∧ b.column_name = c.name ∧
          b.data_type = c.data.dtypeName := by
  have h' : ∀ c ∈ t, c.data.isCategory = false := by
    intro c hc
    by_contra hcc
    have hc2 : hasCategoryColumn t = true := by
      simp only [hasCategoryColumn, List.any_eq_true]
      exact ⟨c, hc, by simpa using hcc⟩
    rw [hc2] at h
    exact Bool.noConfusion h
  obtain ⟨bs, hbs, hlen, hidx⟩ := formBlocksGo_ok t h' 0
  refine ⟨bs, hbs, ?_, hlen, ?_⟩
  · have hdef : Form_columns_description t = (formBlocksGo 0 t).map renderDescription := rfl
    rw [hdef, hbs]
    rfl
  · intro j b hb
    obtain ⟨c, hc, hbi, hbn, hbt⟩ := hidx j b hb
    exact ⟨c, hc, by simpa using hbi, hbn, hbt⟩

/-- C5 counterexample: the claim quantifies over every table, but on a
table with a categorical column the describer raises instead of
producing any output, so no list of header blocks matching the columns
exists. -/
theorem header_blocks_claim_fails_on_category :
    ¬ ∃ bs, formBlocksGo 0 tCategory = .ok bs ∧ bs.length = tCategory.length := by
  rintro ⟨bs, hbs, -⟩
  have he : formBlocksGo 0 tCategory =
      .error (.typeError "Categorical object is not callable") := rfl
  rw [he] at hbs
  exact Except.noConfusion hbs

/-- C5 (amended): for every table with no categorical-kind column, the
output contains exactly one header block per input column, the blocks
appear in input column order, and block j carries the zero-based index
j, the name of column j and its declared kind. -/
theorem header_blocks_match_columns (t : Table) (h : hasCategoryColumn t = false) :
    ∃ bs, formBlocksGo 0 t = .ok bs ∧
      Form_columns_description t = .ok (renderDescription bs) ∧
      bs.length = t.length ∧
      ∀ j : Nat, j < t.length → ∃ b c, bs[j]? = some b ∧ t[j]? = some c ∧
        b.index = j ∧ b.column_name = c.name ∧ b.data_type = c.data.dtypeName := by
  obtain ⟨bs, hbs, hform, hlen, hidx⟩ := form_ok_of_no_category t h
  refine ⟨bs, hbs, hform, hlen, ?_⟩
  intro j hj
  have hjb : j < bs.length := by omega
  obtain ⟨c, hc, hbi, hbn, hbt⟩ := hidx j bs[j] (List.getElem?_eq_getElem hjb)
  exact ⟨bs[j], c, List.getElem?_eq_getElem hjb, hc, hbi, hbn, hbt⟩

/-- Witness for C5 (amended) at the concrete table `tWitness`. -/
theorem header_blocks_match_columns_witness :
    hasCategoryColumn tWitness = false ∧
    (∃ bs, formBlocksGo 0 tWitness = .ok bs ∧
      Form_columns_description tWitness = .ok (renderDescription bs) ∧
      bs.length = tWitness.length ∧
      ∀ j : Nat, j < tWitness.length → ∃ b c, bs[j]? = some b ∧ tWitness[j]? = some c ∧
        b.index = j ∧ b.column_name = c.name ∧ b.data_type = c.data.dtypeName) :=
  ⟨rfl, header_blocks_match_columns tWitness rfl⟩

/-- C7 counterexample: the claim quantifies over every table, but on a
table with a categorical column (which has one column) the describer
raises instead of returning any string. -/
theorem emptiness_claim_fails_on_category :
    ¬ ∃ s, Form_columns_description tCategory = .ok s ∧ (s = "" ↔ tCategory = []) := by
  rintro ⟨s, hs, -⟩
  have he : Form_columns_description tCategory =
      .error (.typeError "Categorical object is not callable") := rfl
  rw [he] at hs
  exact Except.noConfusion hs

/-- C7 (amended): for every table with no categorical-kind column, the
describer returns a string, and that string is empty exactly when the
table has zero columns. -/
theorem description_empty_iff_no_columns (t : Table) (h : hasCategoryColumn t = false) :
    ∃ s, Form_columns_description t = .ok s ∧ (s = "" ↔ t = []) := by
  obtain ⟨bs, hbs, hform, hlen, -⟩ := form_ok_of_no_category t h
  refine ⟨renderDescription bs, hform, ?_, ?_⟩
  · intro hs
    cases bs with
    | nil =>
      cases t with
      | nil => rfl
      | cons a r => simp at hlen
    | cons b bs' =>
      rw [renderDescription_cons] at hs
      have hlen2 := congrArg String.length hs
      rw [String.length_append] at hlen2
      have h1 : ("\n" : String).length = 1 := rfl
      have h0 : ("" : String).length = 0 := rfl
      rw [h1, h0] at hlen2
      omega
  · rintro rfl
    have hnil : formBlocksGo 0 ([] : Table) = .ok [] := rfl
    rw [hnil] at hbs
    have : bs = [] := (Except.ok.inj hbs).symm
    rw [this]
    rfl

/-- Witness for C7 (amended) at the concrete table `tWitness`. -/
theorem description_empty_iff_no_columns_witness :
    hasCategoryColumn tWitness = false ∧
    ∃ s, Form_columns_description tWitness = .ok s ∧ (s = "" ↔ tWitness = []) :=
  ⟨rfl, description_empty_iff_no_columns tWitness rfl⟩

/-- C10 counterexample: the claim quantifies over every table with at
least one column, but on a table with a categorical column (which has
one column) the describer raises instead of returning a string, so in
particular no returned string starts with a newline. -/
theorem leading_newline_claim_fails_on_category :
    ¬ ∃ s r, Form_columns_description tCategory = .ok s ∧ s = "\n" ++ r := by
  rintro ⟨s, r, hs, -⟩
  have he : Form_columns_description tCategory =
      .error (.typeError "Categorical object is not callable") := rfl
  rw [he] at hs
  exact Except.noConfusion hs

/-- C10 (amended): for every non-empty table with no categorical-kind
column, the returned description starts with the newline separator that
the loop appends before every column paragraph, the first one
included. -/
theorem description_starts_with_newline (t : Table)
    (h1 : hasCategoryColumn t = false) (h2 : t ≠ []) :
    ∃ s r, Form_columns_description t = .ok s ∧ s = "\n" ++ r := by
  obtain ⟨bs, hbs, hform, hlen, -⟩ := form_ok_of_no_category t h1
  cases bs with
  | nil =>
    cases t with
    | nil => exact absurd rfl h2
    | cons a r => simp at hlen
  | cons b bs' =>
    exact ⟨_, renderBlock b ++ renderDescription bs', hform, renderDescription_cons b bs'⟩

/-- Witness for C10 (amended) at the concrete table `tWitness`. -/
theorem description_starts_with_newline_witness :
    hasCategoryColumn tWitness = false ∧ tWitness ≠ [] ∧
    ∃ s r, Form_columns_description tWitness = .ok s ∧ s = "\n" ++ r :=
  ⟨rfl, by decide, description_starts_with_newline tWitness rfl (by decide)⟩
